import Mathlib

/-!
Verification of the GPU admission scheduler, job-lifecycle orchestrator and
result-delivery client of the qwen_production repository, as a shallow
embedding of the Python sources:
  app/service/scheduler.py      (GPUScheduler)
  app/service/asset_callback.py (send_callback retry loop)
  app/routers/tryon.py          (tryon endpoint, process_inference_async)
  app/service/inference.py      (run_inference, modelled at branch level)
  app/service/utils_image.py    (validate_image_file)
-/

set_option linter.unusedVariables false

/-! ## Scheduler state (app/service/scheduler.py, GPUScheduler) -/

/-- The mutable fields of `GPUScheduler`: `_busy`, `_current_job_id`,
`_queue_length`. The lock only serialises access; each method body is a pure
transition on this state. -/
structure GPUScheduler where
  busy : Bool
  current_job_id : Option String
  queue_length : Nat
  deriving DecidableEq, Repr

/-- `GPUScheduler.__init__`: free slot, no job, zero counter. -/
def initScheduler : GPUScheduler :=
  { busy := false, current_job_id := none, queue_length := 0 }

/-- `GPUScheduler.can_accept_job`: true iff not busy. -/
def can_accept_job (s : GPUScheduler) : Bool :=
  !s.busy

/-- `GPUScheduler.accept_job`: if busy, return False without mutation;
otherwise set busy, record the job id, increment the counter, return True. -/
def accept_job (s : GPUScheduler) (job_id : String) : GPUScheduler × Bool :=
  if s.busy then
    (s, false)
  else
    ({ busy := true, current_job_id := some job_id,
       queue_length := s.queue_length + 1 }, true)

/-- `GPUScheduler.complete_job`: if the recorded job matches, clear busy and
the job id and decrement the counter (floored at 0); otherwise only warn and
decrement the counter (floored at 0) — busy and the job id are unchanged. -/
def complete_job (s : GPUScheduler) (job_id : String) : GPUScheduler :=
  if s.current_job_id = some job_id then
    { busy := false, current_job_id := none,
      queue_length := if s.queue_length > 0 then s.queue_length - 1 else s.queue_length }
  else
    { s with
      queue_length := if s.queue_length > 0 then s.queue_length - 1 else s.queue_length }

/-- `GPUScheduler.get_status`: snapshot of the three fields. -/
def get_status (s : GPUScheduler) : Bool × Option String × Nat :=
  (s.busy, s.current_job_id, s.queue_length)

/-- The results of a sequence of `accept_job` calls, threading the state. -/
def run_accepts (s : GPUScheduler) : List String → List Bool
  | [] => []
  | j :: js => (accept_job s j).2 :: run_accepts (accept_job s j).1 js

lemma accept_job_busy (s : GPUScheduler) (j : String) (h : s.busy = true) :
    accept_job s j = (s, false) := by
  simp [accept_job, h]

lemma accept_job_free (s : GPUScheduler) (j : String) (h : s.busy = false) :
    accept_job s j =
      ({ busy := true, current_job_id := some j,
         queue_length := s.queue_length + 1 }, true) := by
  simp [accept_job, h]

lemma run_accepts_busy (s : GPUScheduler) (h : s.busy = true) :
    ∀ js : List String, run_accepts s js = List.replicate js.length false := by
  intro js
  induction js generalizing s with
  | nil => rfl
  | cons j js ih =>
    simp [run_accepts, accept_job_busy s j h, List.replicate_succ, ih s h]

lemma complete_job_match (s : GPUScheduler) (j : String)
    (h : s.current_job_id = some j) :
    complete_job s j =
      { busy := false, current_job_id := none,
        queue_length := s.queue_length - 1 } := by
  unfold complete_job
  rw [if_pos h]
  have hq : (if s.queue_length > 0 then s.queue_length - 1 else s.queue_length) =
      s.queue_length - 1 := by
    split <;> omega
  rw [hq]

lemma complete_job_mismatch_eq (s : GPUScheduler) (j : String)
    (h : s.current_job_id ≠ some j) :
    complete_job s j = { s with queue_length := s.queue_length - 1 } := by
  unfold complete_job
  rw [if_neg h]
  have hq : (if s.queue_length > 0 then s.queue_length - 1 else s.queue_length) =
      s.queue_length - 1 := by
    split <;> omega
  rw [hq]

lemma complete_job_queue (s : GPUScheduler) (j : String) :
    (complete_job s j).queue_length = s.queue_length - 1 := by
  by_cases hc : s.current_job_id = some j
  · rw [complete_job_match s j hc]
  · rw [complete_job_mismatch_eq s j hc]

/-- C1: `accept_job` on a free slot sets busy, records the job and increments
the counter, returning true; on a busy slot it returns false without mutation;
hence in any sequence of accepts from a free slot the first returns true and
all later ones return false, and after a matching release an accept succeeds
again. -/
theorem accept_job_mutual_exclusion (s : GPUScheduler) (j j' : String)
    (js : List String) :
    (s.busy = false →
      accept_job s j =
        ({ busy := true, current_job_id := some j,
           queue_length := s.queue_length + 1 }, true)) ∧
    (s.busy = true → accept_job s j = (s, false)) ∧
    (s.busy = false →
      run_accepts s (j :: js) = true :: List.replicate js.length false) ∧
    (s.busy = false →
      (accept_job (complete_job (accept_job s j).1 j) j').2 = true) := by
  refine ⟨fun h => accept_job_free s j h, fun h => accept_job_busy s j h, ?_, ?_⟩
  · intro h
    simp [run_accepts, accept_job_free s j h]
    exact run_accepts_busy _ rfl js
  · intro h
    rw [accept_job_free s j h]
    have hm := complete_job_match
      { busy := true, current_job_id := some j, queue_length := s.queue_length + 1 } j rfl
    simp [hm, accept_job]

/-- C1 witness: from the initial (free) state, the accept sequence
J1, J2, J3 yields true, false, false. -/
theorem accept_job_mutual_exclusion_witness :
    run_accepts initScheduler ["J1", "J2", "J3"] = [true, false, false] := by
  have h := (accept_job_mutual_exclusion initScheduler "J1" "J0" ["J2", "J3"]).2.2.1 rfl
  simpa using h

/-- C3 counterexample: after accepting job A, releasing with the mismatched
id B leaves the slot occupied — `complete_job` does not clear `busy` on a
mismatch, contrary to the claim that occupied becomes false. -/
theorem complete_job_mismatch_counterexample :
    ¬ ((complete_job (accept_job initScheduler "A").1 "B").busy = false) := by
  decide

/-- C3 amended: releasing an occupied slot with a non-matching job id leaves
`busy` and `current_job_id` unchanged (the slot stays occupied), decrements
the counter floored at zero, and is a total function (never raises). -/
theorem complete_job_mismatch (s : GPUScheduler) (j : String)
    (hb : s.busy = true) (hm : s.current_job_id ≠ some j) :
    (complete_job s j).busy = true ∧
    (complete_job s j).current_job_id = s.current_job_id ∧
    (complete_job s j).queue_length = s.queue_length - 1 := by
  rw [complete_job_mismatch_eq s j hm]
  exact ⟨hb, rfl, rfl⟩

/-- C3 witness: the mismatched release of B after accepting A, concretely. -/
theorem complete_job_mismatch_witness :
    (complete_job (accept_job initScheduler "A").1 "B").busy = true ∧
    (complete_job (accept_job initScheduler "A").1 "B").current_job_id =
      (accept_job initScheduler "A").1.current_job_id ∧
    (complete_job (accept_job initScheduler "A").1 "B").queue_length =
      (accept_job initScheduler "A").1.queue_length - 1 :=
  complete_job_mismatch (accept_job initScheduler "A").1 "B" (by decide) (by decide)

/-! ## Reachable scheduler states under accept/release sequences (C4) -/

/-- One scheduler operation: an `accept_job` or a `complete_job` call. -/
inductive SchedOp where
  | accept (job_id : String)
  | release (job_id : String)
  deriving DecidableEq, Repr

/-- Apply one operation to the scheduler state. -/
def applySchedOp (s : GPUScheduler) : SchedOp → GPUScheduler
  | SchedOp.accept j => (accept_job s j).1
  | SchedOp.release j => complete_job s j

/-- Run a sequence of operations from a state. -/
def runOps (s : GPUScheduler) (ops : List SchedOp) : GPUScheduler :=
  ops.foldl applySchedOp s

/-- The part of the claimed counter invariant that actually holds. -/
def CounterInv (s : GPUScheduler) : Prop :=
  s.queue_length ≤ 1 ∧ (s.queue_length = 1 → s.busy = true)

lemma counterInv_step (s : GPUScheduler) (op : SchedOp) (h : CounterInv s) :
    CounterInv (applySchedOp s op) := by
  obtain ⟨h1, h2⟩ := h
  cases op with
  | accept j =>
    by_cases hb : s.busy = true
    · simpa [applySchedOp, accept_job_busy s j hb] using ⟨h1, h2⟩
    · have hb' : s.busy = false := by simpa using hb
      have hq : s.queue_length = 0 := by
        rcases Nat.lt_or_ge s.queue_length 1 with h | h
        · omega
        · have : s.queue_length = 1 := by omega
          exact absurd (h2 this) (by simp [hb'])
      simp [applySchedOp, accept_job_free s j hb', CounterInv, hq]
  | release j =>
    show CounterInv (complete_job s j)
    refine ⟨?_, ?_⟩
    · rw [complete_job_queue]
      omega
    · intro hq
      rw [complete_job_queue] at hq
      exact absurd hq (by omega)

/-- C4 counterexample: the state reached by accepting A and then releasing
with the mismatched id B has `queue_length = 0` but `busy = true`, refuting
the claimed equivalence `inFlightCount == 1 ⟺ occupied == true`. -/
theorem counter_invariant_counterexample :
    ¬ ((runOps initScheduler [SchedOp.accept "A", SchedOp.release "B"]).queue_length = 1 ↔
       (runOps initScheduler [SchedOp.accept "A", SchedOp.release "B"]).busy = true) := by
  decide

/-- C4 amended: in every state reachable from the initial scheduler state by
accept and release operations (mismatched releases included), the counter is
0 or 1 and counter = 1 implies occupied; the converse implication fails. -/
theorem counter_invariant (ops : List SchedOp) :
    (runOps initScheduler ops).queue_length ≤ 1 ∧
    ((runOps initScheduler ops).queue_length = 1 →
      (runOps initScheduler ops).busy = true) := by
  have main : ∀ (ops : List SchedOp) (s : GPUScheduler),
      CounterInv s → CounterInv (runOps s ops) := by
    intro ops
    induction ops with
    | nil => intro s hs; simpa [runOps] using hs
    | cons op ops ih =>
      intro s hs
      have := ih (applySchedOp s op) (counterInv_step s op hs)
      simpa [runOps, List.foldl_cons] using this
  exact main ops initScheduler ⟨by simp [initScheduler], by simp [initScheduler]⟩

/-! ## Result delivery client (app/service/asset_callback.py, send_callback) -/

/-- What one delivery attempt observes: either the HTTP request raised
(transport failure) or a response with a status code and body came back. -/
inductive AttemptOutcome where
  | transportError (msg : String)
  | response (status : Nat) (body : String)
  deriving DecidableEq, Repr

/-- The check the code performs on an attempt: `response.status_code == 200`
after a request that did not raise. -/
def is200 : AttemptOutcome → Bool
  | AttemptOutcome.response 200 _ => true
  | _ => false

/-- The observable result of one `send_callback` call: the returned bool,
how many attempts ran, and the backoff sleeps performed (in order). -/
structure DeliveryTrace where
  ok : Bool
  attempts : Nat
  delays : List Nat
  deriving DecidableEq, Repr

/-- The `for attempt in range(max_retries)` loop of `send_callback`:
`remaining` counts loop iterations left, `attempt` is the 0-based index.
A 200 response returns True at once; otherwise the failure is recorded and,
when `attempt < max_retries - 1`, the loop sleeps `2 ** attempt` before the
next attempt. Exhausting the loop returns False. -/
def send_attempts (env : Nat → AttemptOutcome) (max_retries : Nat) :
    Nat → Nat → DeliveryTrace
  | 0, attempt => { ok := false, attempts := attempt, delays := [] }
  | remaining + 1, attempt =>
    if is200 (env attempt) then
      { ok := true, attempts := attempt + 1, delays := [] }
    else
      let rest := send_attempts env max_retries remaining (attempt + 1)
      if attempt < max_retries - 1 then
        { ok := rest.ok, attempts := rest.attempts, delays := 2 ^ attempt :: rest.delays }
      else
        rest

/-- `send_callback` with the attempt environment `env`: run the retry loop
from attempt 0. -/
def send_callback (env : Nat → AttemptOutcome) (max_retries : Nat) : DeliveryTrace :=
  send_attempts env max_retries max_retries 0

lemma send_attempts_all_fail (env : Nat → AttemptOutcome) (m : Nat)
    (hfail : ∀ i, i < m → is200 (env i) = false) :
    ∀ r a, a + r = m →
      send_attempts env m r a =
        { ok := false, attempts := m,
          delays := (List.range' a (m - 1 - a)).map (fun i => 2 ^ i) } := by
  intro r
  induction r with
  | zero =>
    intro a ha
    simp only [Nat.add_zero] at ha
    subst ha
    simp [send_attempts]
  | succ r ih =>
    intro a ha
    have haltm : a < m := by omega
    have hfa : is200 (env a) = false := hfail a haltm
    have hrest := ih (a + 1) (by omega)
    unfold send_attempts
    rw [hfa]
    simp only [Bool.false_eq_true, if_false, hrest]
    by_cases hlast : a < m - 1
    · rw [if_pos hlast]
      have hr : m - 1 - a = (m - 1 - (a + 1)) + 1 := by omega
      rw [hr, List.range'_succ]
      simp
    · rw [if_neg hlast]
      have h0 : m - 1 - a = 0 := by omega
      have h1 : m - 1 - (a + 1) = 0 := by omega
      rw [h0, h1]
      simp

/-- C5: when every attempt fails (transport error or non-200 status),
`send_callback` with maximum attempt count m makes exactly m attempts,
returns false, sleeps `2^(k-2)` units before attempt k for every k ≥ 2,
and performs no sleep after the final attempt (m - 1 sleeps in total). -/
theorem send_callback_all_fail (env : Nat → AttemptOutcome) (m : Nat)
    (hfail : ∀ i, i < m → is200 (env i) = false) :
    send_callback env m =
      { ok := false, attempts := m,
        delays := (List.range (m - 1)).map (fun i => 2 ^ i) } ∧
    (send_callback env m).delays.length = m - 1 ∧
    (∀ k, 2 ≤ k → k ≤ m →
      (send_callback env m).delays.get? (k - 2) = some (2 ^ (k - 2))) := by
  have h0 := send_attempts_all_fail env m hfail m 0 (by omega)
  have hmain : send_callback env m =
      { ok := false, attempts := m,
        delays := (List.range (m - 1)).map (fun i => 2 ^ i) } := by
    rw [send_callback, h0, List.range_eq_range']
    simp
  refine ⟨hmain, ?_, ?_⟩
  · rw [hmain]
    simp
  · intro k hk2 hkm
    rw [hmain]
    simp only [List.get?_map, List.get?_range (by omega : k - 2 < m - 1)]
    rfl

/-- C5 witness: with max attempts 3 and every attempt answering HTTP 500,
`send_callback` makes 3 attempts, sleeps 1 then 2 units, and returns false. -/
theorem send_callback_all_fail_witness :
    send_callback (fun _ => AttemptOutcome.response 500 "err") 3 =
      { ok := false, attempts := 3, delays := [1, 2] } := by
  have h := (send_callback_all_fail (fun _ => AttemptOutcome.response 500 "err") 3
    (fun i _ => rfl)).1
  simpa using h

/-- C6 counterexample: with every attempt answering HTTP 201 (a 2xx status),
`send_callback` with max attempts 3 does not return true after 1 attempt —
the code retries on anything other than exactly 200, so it makes 3 attempts
and returns false. -/
theorem send_callback_2xx_counterexample :
    ¬ (((send_callback (fun _ => AttemptOutcome.response 201 "created") 3).ok = true) ∧
       (send_callback (fun _ => AttemptOutcome.response 201 "created") 3).attempts = 1) := by
  decide

lemma send_attempts_attempts_ge1 (env : Nat → AttemptOutcome) (m : Nat) :
    ∀ r a, a + 1 ≤ (send_attempts env m (r + 1) a).attempts := by
  intro r
  induction r with
  | zero =>
    intro a
    unfold send_attempts
    by_cases h : is200 (env a) = true
    · rw [h]
      simp
    · rw [Bool.not_eq_true] at h
      rw [h]
      simp only [Bool.false_eq_true, if_false]
      have hbase : (send_attempts env m 0 (a + 1)).attempts = a + 1 := rfl
      by_cases hl : a < m - 1
      · rw [if_pos hl]
        simp only []
        omega
      · rw [if_neg hl]
        omega
  | succ r ih =>
    intro a
    unfold send_attempts
    by_cases h : is200 (env a) = true
    · rw [h]
      simp
    · rw [Bool.not_eq_true] at h
      rw [h]
      simp only [Bool.false_eq_true, if_false]
      have := ih (a + 1)
      by_cases hl : a < m - 1
      · rw [if_pos hl]
        simp only []
        omega
      · rw [if_neg hl]
        omega

/-- C6 amended: `send_callback` returns true after exactly one attempt when
the first attempt's response status is exactly 200; a first attempt whose
outcome is anything else — a transport error or any status other than 200,
other 2xx codes included — leads to at least a second attempt. -/
theorem send_callback_only_200 (env : Nat → AttemptOutcome) (m : Nat) (b : String) :
    (1 ≤ m → env 0 = AttemptOutcome.response 200 b →
      send_callback env m = { ok := true, attempts := 1, delays := [] }) ∧
    (2 ≤ m → is200 (env 0) = false → 2 ≤ (send_callback env m).attempts) := by
  constructor
  · intro hm h0
    obtain ⟨r, hr⟩ : ∃ r, m = r + 1 := ⟨m - 1, by omega⟩
    subst hr
    rw [send_callback]
    unfold send_attempts
    rw [h0]
    simp [is200]
  · intro hm h0
    obtain ⟨r, hr⟩ : ∃ r, m = r + 2 := ⟨m - 2, by omega⟩
    subst hr
    rw [send_callback]
    unfold send_attempts
    rw [h0]
    simp only [Bool.false_eq_true, if_false, Nat.zero_add]
    have hge := send_attempts_attempts_ge1 env (r + 2) r 1
    by_cases hl : (0 : Nat) < r + 2 - 1
    · rw [if_pos hl]
      simp only []
      omega
    · omega

/-- C6 witness: first attempt answers exactly 200 — one attempt, true. -/
theorem send_callback_only_200_witness :
    send_callback (fun _ => AttemptOutcome.response 200 "okay") 3 =
      { ok := true, attempts := 1, delays := [] } :=
  (send_callback_only_200 (fun _ => AttemptOutcome.response 200 "okay") 3 "okay").1
    (by omega) rfl

/-! ## Job lifecycle orchestrator
(app/routers/tryon.py process_inference_async, app/service/inference.py
run_inference modelled at branch level) -/

/-- `str(x)` for an `Optional[str]` interpolated into a Python f-string. -/
def pyStr : Option String → String
  | some s => s
  | none => "None"

/-- The outcome of the inference workflow body, once models are loaded. -/
inductive EngineOutcome where
  | ok (output_path : String) (time_ms : Nat)
  | err (msg : String)
  deriving DecidableEq, Repr

/-- One orchestrator run's environment: the temp-file names the two uploads
were saved under, the `validate_image_file` results for each, whether the
models are loaded, the engine outcome, and whether `send_callback` delivery
succeeds. -/
structure OrchEnv where
  masked_temp_path : String
  garment_temp_path : String
  masked_valid : Bool × Option String
  garment_valid : Bool × Option String
  models_loaded : Bool
  engine : EngineOutcome
  deliver_ok : Bool
  deriving DecidableEq, Repr

/-- The message `run_inference` raises before anything else when the model
cache is empty. -/
def models_not_loaded_msg : String := "Models not loaded. Call load_models_once() first."

/-- `run_inference`: raises the not-loaded message before creating anything;
otherwise copies the two inputs to `input/masked_person.png` and
`input/cloth.png`, and either returns the saved output path and elapsed time
or re-raises any workflow failure wrapped as "Inference failed: ...". The
second component lists the files the call created. -/
def run_inference (env : OrchEnv) : Except String (String × Nat) × List String :=
  if env.models_loaded = false then
    (Except.error models_not_loaded_msg, [])
  else
    match env.engine with
    | EngineOutcome.ok p t =>
      (Except.ok (p, t), ["input/masked_person.png", "input/cloth.png", p])
    | EngineOutcome.err m =>
      (Except.error ("Inference failed: " ++ m), ["input/masked_person.png", "input/cloth.png"])

/-- The fields `send_callback` is called with by the orchestrator (an error
callback is `send_callback` with an empty output path, zero time and the
error text). -/
structure CallbackPayload where
  job_id : String
  user_id : String
  session_id : String
  output_image_path : String
  inference_time_ms : Nat
  error : Option String
  deriving DecidableEq, Repr

/-- `send_error_callback`: a `send_callback` whose output path is empty,
whose time is zero and whose `error` field carries the message. -/
def error_callback (job_id user_id session_id msg : String) : CallbackPayload :=
  { job_id := job_id, user_id := user_id, session_id := session_id,
    output_image_path := "", inference_time_ms := 0, error := some msg }

/-- The success-path `send_callback` payload: output path, elapsed time,
no error field. -/
def success_callback (job_id user_id session_id output_image_path : String)
    (inference_time_ms : Nat) : CallbackPayload :=
  { job_id := job_id, user_id := user_id, session_id := session_id,
    output_image_path := output_image_path,
    inference_time_ms := inference_time_ms, error := none }

/-- Everything observable about one `process_inference_async` run. -/
structure OrchResult where
  sched : GPUScheduler
  callback : CallbackPayload
  callback_ok : Bool
  engine_invoked : Bool
  raised : Bool
  created_files : List String
  deleted_files : List String
  deriving DecidableEq, Repr

/-- `process_inference_async`: save the two uploads, validate each (raising
`ValueError` on failure), run inference, send the success callback; any
exception from those steps is caught and turned into an error callback; the
`finally` block then deletes the two saved uploads and calls
`complete_job(job_id)`. Nothing escapes the function (`raised := false` on
every path) and only the two upload temp files are ever deleted. -/
def process_inference_async (env : OrchEnv) (sched : GPUScheduler)
    (job_id user_id session_id : String) : OrchResult :=
  let created0 := [env.masked_temp_path, env.garment_temp_path]
  let deleted := [env.masked_temp_path, env.garment_temp_path]
  let finally_sched := complete_job sched job_id
  if env.masked_valid.1 = false then
    { sched := finally_sched,
      callback := error_callback job_id user_id session_id
        ("Invalid masked_user_image: " ++ pyStr env.masked_valid.2),
      callback_ok := env.deliver_ok, engine_invoked := false, raised := false,
      created_files := created0, deleted_files := deleted }
  else if env.garment_valid.1 = false then
    { sched := finally_sched,
      callback := error_callback job_id user_id session_id
        ("Invalid garment_image: " ++ pyStr env.garment_valid.2),
      callback_ok := env.deliver_ok, engine_invoked := false, raised := false,
      created_files := created0, deleted_files := deleted }
  else
    match run_inference env with
    | (Except.error m, fs) =>
      { sched := finally_sched,
        callback := error_callback job_id user_id session_id m,
        callback_ok := env.deliver_ok, engine_invoked := true, raised := false,
        created_files := created0 ++ fs, deleted_files := deleted }
    | (Except.ok (p, t), fs) =>
      { sched := finally_sched,
        callback := success_callback job_id user_id session_id p t,
        callback_ok := env.deliver_ok, engine_invoked := true, raised := false,
        created_files := created0 ++ fs, deleted_files := deleted }

lemma process_inference_async_sched (env : OrchEnv) (sched : GPUScheduler)
    (job_id user_id session_id : String) :
    (process_inference_async env sched job_id user_id session_id).sched =
      complete_job sched job_id := by
  unfold process_inference_async
  split
  · rfl
  · split
    · rfl
    · split <;> rfl

/-- C2: every orchestrator run ends by releasing the job it ran — the
resulting scheduler state is `complete_job sched job_id` on every branch —
so when the run's job is the recorded occupant, the slot is free afterward. -/
theorem slot_always_freed (env : OrchEnv) (sched : GPUScheduler)
    (job_id user_id session_id : String)
    (hocc : sched.current_job_id = some job_id) :
    (process_inference_async env sched job_id user_id session_id).sched =
      complete_job sched job_id ∧
    (process_inference_async env sched job_id user_id session_id).sched.busy = false := by
  refine ⟨process_inference_async_sched env sched job_id user_id session_id, ?_⟩
  rw [process_inference_async_sched env sched job_id user_id session_id,
    complete_job_match sched job_id hocc]

/-- C2 witness: a run of job J1 while J1 occupies the slot, under an
engine-failure environment, leaves the slot free. -/
theorem slot_always_freed_witness :
    (process_inference_async
      { masked_temp_path := "/tmp/upload_a.tmp", garment_temp_path := "/tmp/upload_b.tmp",
        masked_valid := (true, none), garment_valid := (true, none),
        models_loaded := true, engine := EngineOutcome.err "CUDA out of memory",
        deliver_ok := false }
      (accept_job initScheduler "J1").1 "J1" "u1" "s1").sched =
      complete_job (accept_job initScheduler "J1").1 "J1" ∧
    (process_inference_async
      { masked_temp_path := "/tmp/upload_a.tmp", garment_temp_path := "/tmp/upload_b.tmp",
        masked_valid := (true, none), garment_valid := (true, none),
        models_loaded := true, engine := EngineOutcome.err "CUDA out of memory",
        deliver_ok := false }
      (accept_job initScheduler "J1").1 "J1" "u1" "s1").sched.busy = false :=
  slot_always_freed
    { masked_temp_path := "/tmp/upload_a.tmp", garment_temp_path := "/tmp/upload_b.tmp",
      masked_valid := (true, none), garment_valid := (true, none),
      models_loaded := true, engine := EngineOutcome.err "CUDA out of memory",
      deliver_ok := false }
    (accept_job initScheduler "J1").1 "J1" "u1" "s1" (by decide)

/-- A success-path run environment used as concrete input. -/
def envSuccess : OrchEnv :=
  { masked_temp_path := "/tmp/upload_a.tmp", garment_temp_path := "/tmp/upload_b.tmp",
    masked_valid := (true, none), garment_valid := (true, none),
    models_loaded := true, engine := EngineOutcome.ok "output/qwen_ab.png" 1234,
    deliver_ok := true }

/-- C7 counterexample: on a successful run the output artifact file is among
the files the run created but not among the files the run deleted — the
`finally` block only removes the two saved uploads, so the output file (and
the engine's input copies) survive the run, contrary to the claim. -/
theorem cleanup_counterexample :
    "output/qwen_ab.png" ∈
      (process_inference_async envSuccess (accept_job initScheduler "J1").1
        "J1" "u1" "s1").created_files ∧
    "output/qwen_ab.png" ∉
      (process_inference_async envSuccess (accept_job initScheduler "J1").1
        "J1" "u1" "s1").deleted_files := by
  decide

/-- C7 amended: on every code path the run deletes exactly the two saved
input uploads — which it did create — and nothing else; the engine input
copies and the output artifact are never deleted. -/
theorem cleanup_deletes_uploads_only (env : OrchEnv) (sched : GPUScheduler)
    (job_id user_id session_id : String) :
    (process_inference_async env sched job_id user_id session_id).deleted_files =
      [env.masked_temp_path, env.garment_temp_path] ∧
    env.masked_temp_path ∈
      (process_inference_async env sched job_id user_id session_id).created_files ∧
    env.garment_temp_path ∈
      (process_inference_async env sched job_id user_id session_id).created_files := by
  unfold process_inference_async
  split
  · exact ⟨rfl, by simp, by simp⟩
  · split
    · exact ⟨rfl, by simp, by simp⟩
    · split <;> exact ⟨rfl, by simp, by simp⟩

/-- C8: on every run no exception escapes the orchestrator; a failed masked
or garment validation yields an error callback carrying the validation
message, an empty artifact path and zero time, without ever invoking the
engine; an engine invocation that raises — the models-not-loaded readiness
failure or a workflow failure — yields an error callback carrying the raised
error text, an empty artifact path and zero time. -/
theorem engine_failure_containment (env : OrchEnv) (sched : GPUScheduler)
    (job_id user_id session_id : String) :
    (process_inference_async env sched job_id user_id session_id).raised = false ∧
    (env.masked_valid.1 = false →
      (process_inference_async env sched job_id user_id session_id).engine_invoked = false ∧
      (process_inference_async env sched job_id user_id session_id).callback =
        error_callback job_id user_id session_id
          ("Invalid masked_user_image: " ++ pyStr env.masked_valid.2)) ∧
    (env.masked_valid.1 = true → env.garment_valid.1 = false →
      (process_inference_async env sched job_id user_id session_id).engine_invoked = false ∧
      (process_inference_async env sched job_id user_id session_id).callback =
        error_callback job_id user_id session_id
          ("Invalid garment_image: " ++ pyStr env.garment_valid.2)) ∧
    (env.masked_valid.1 = true → env.garment_valid.1 = true →
      env.models_loaded = false →
      (process_inference_async env sched job_id user_id session_id).callback =
        error_callback job_id user_id session_id models_not_loaded_msg) ∧
    (∀ m, env.masked_valid.1 = true → env.garment_valid.1 = true →
      env.models_loaded = true → env.engine = EngineOutcome.err m →
      (process_inference_async env sched job_id user_id session_id).callback =
        error_callback job_id user_id session_id ("Inference failed: " ++ m)) := by
  refine ⟨?_, ?_, ?_, ?_, ?_⟩
  · unfold process_inference_async
    split
    · rfl
    · split
      · rfl
      · split <;> rfl
  · intro h1
    unfold process_inference_async
    rw [h1]
    exact ⟨rfl, rfl⟩
  · intro h1 h2
    unfold process_inference_async
    rw [h1, h2]
    simp
  · intro h1 h2 h3
    unfold process_inference_async
    rw [h1, h2]
    unfold run_inference
    rw [h3]
    simp
  · intro m h1 h2 h3 h4
    unfold process_inference_async
    rw [h1, h2]
    unfold run_inference
    rw [h3, h4]
    simp

/-! ## Tryon endpoint config parsing (app/routers/tryon.py, tryon) -/

/-- The default prompt text the endpoint supplies when the config carries no
"prompt" key. -/
def default_prompt : String :=
  "将图片 1 中的绿色遮罩区域仅用于判断服装属于上半身或下半身，不要将服装限制在遮罩范围内。\n\n将图片 2 中的服装自然地穿戴到图片 1 中的人物身上，保持图片 2 中服装的完整形状、袖长和轮廓。无论图片 2 是单独的服装图还是人物穿着该服装的图，都应准确地转移服装，同时保留其原始面料质感、材质细节和颜色准确性。\n\n确保图片 1 中人物的面部、头发和皮肤完全保持不变。光照与阴影应自然匹配图片 1 的环境，但服装的材质外观必须忠实于图片 2。\n\n保持边缘平滑融合、阴影逼真，整体效果自然且不改变人物的身份特征"

/-- How the `config` form field parses: absent/empty, `json.loads` raising
`JSONDecodeError`, or a JSON object with the four recognised optional keys. -/
inductive ConfigParse where
  | absent
  | invalid
  | valid (prompt : Option String) (seed : Option Int) (steps : Option Nat) (cfg : Option Rat)
  deriving DecidableEq

/-- The parameters handed to `process_inference_async`. -/
structure JobParams where
  prompt : String
  seed : Option Int
  steps : Nat
  cfg : Rat
  deriving DecidableEq

/-- The endpoint's parameter resolution: an absent config and a config whose
JSON parse failed both leave `inference_config = {}` (the parse failure only
logs a warning), so every `.get` falls back to its default: the default
prompt, no seed, steps 4, cfg 1.0. -/
def resolve_params : ConfigParse → JobParams
  | ConfigParse.absent =>
    { prompt := default_prompt, seed := none, steps := 4, cfg := 1 }
  | ConfigParse.invalid =>
    { prompt := default_prompt, seed := none, steps := 4, cfg := 1 }
  | ConfigParse.valid p s st c =>
    { prompt := p.getD default_prompt, seed := s, steps := st.getD 4, cfg := c.getD 1 }

/-- What the `tryon` endpoint replies with: a 429 busy rejection or a 202
acceptance that spawns the background run with the resolved parameters. -/
inductive TryonDecision where
  | rejected_busy
  | accepted (params : JobParams)
  deriving DecidableEq

/-- The admission part of the `tryon` endpoint: reject with 429 when
`can_accept_job` is false or the `accept_job` race check fails; otherwise
parse the config, resolve parameters and spawn the background task. -/
def tryon (sched : GPUScheduler) (job_id : String) (cfg : ConfigParse) :
    GPUScheduler × TryonDecision :=
  if can_accept_job sched = false then
    (sched, TryonDecision.rejected_busy)
  else
    let r := accept_job sched job_id
    if r.2 = false then
      (r.1, TryonDecision.rejected_busy)
    else
      (r.1, TryonDecision.accepted (resolve_params cfg))

/-- C9: an inference-options string that is not valid JSON neither rejects
nor fails the job — with the slot free the endpoint still accepts it, and it
runs with every parameter at its default (default prompt, no seed, steps 4,
cfg 1.0), exactly as if no config had been supplied. -/
theorem invalid_config_uses_defaults (sched : GPUScheduler) (job_id : String)
    (hfree : sched.busy = false) :
    (tryon sched job_id ConfigParse.invalid).2 =
      TryonDecision.accepted
        { prompt := default_prompt, seed := none, steps := 4, cfg := 1 } ∧
    (tryon sched job_id ConfigParse.invalid).2 =
      (tryon sched job_id ConfigParse.absent).2 := by
  have hacc := accept_job_free sched job_id hfree
  constructor <;>
    simp [tryon, can_accept_job, hfree, hacc, resolve_params]

/-- C9 witness: submitting a malformed config on the initial free state. -/
theorem invalid_config_uses_defaults_witness :
    (tryon initScheduler "J1" ConfigParse.invalid).2 =
      TryonDecision.accepted
        { prompt := default_prompt, seed := none, steps := 4, cfg := 1 } ∧
    (tryon initScheduler "J1" ConfigParse.invalid).2 =
      (tryon initScheduler "J1" ConfigParse.absent).2 :=
  invalid_config_uses_defaults initScheduler "J1" rfl

/-! ## Image validation (app/service/utils_image.py, validate_image_file) -/

/-- What probing the path observes: the file is missing, PIL raises while
opening or verifying it, or it opens as an image of some format. -/
inductive FileProbe where
  | missing
  | openError (msg : String)
  | image (format : String)
  deriving DecidableEq, Repr

/-- The format whitelist of `validate_image_file`. -/
def supported_formats : List String := ["PNG", "JPEG", "JPG", "WEBP"]

/-- `validate_image_file`: missing file and any PIL failure return
`(False, message)` through the blanket `except`; an image whose format is
outside the whitelist returns `(False, message)`; only a supported image
returns `(True, None)`. -/
def validate_image_file (file_path : String) (probe : FileProbe) :
    Bool × Option String :=
  match probe with
  | FileProbe.missing => (false, some ("File not found: " ++ file_path))
  | FileProbe.openError m => (false, some ("Invalid image file: " ++ m))
  | FileProbe.image fmt =>
    if fmt ∈ supported_formats then (true, none)
    else (false, some ("Unsupported image format: " ++ fmt))

/-- C10: `validate_image_file` is total and never raises — every input,
including a missing path, yields a `(Bool, Option String)` pair, with an
error message whenever the verdict is false — and it returns `(true, none)`
exactly when the file opens as an image whose format is PNG, JPEG, JPG or
WEBP. -/
theorem validate_image_file_total (file_path : String) (probe : FileProbe) :
    ((validate_image_file file_path probe).1 = false →
      (validate_image_file file_path probe).2.isSome = true) ∧
    (validate_image_file file_path probe = (true, none) ↔
      ∃ fmt, probe = FileProbe.image fmt ∧ fmt ∈ supported_formats) ∧
    (probe = FileProbe.missing →
      validate_image_file file_path probe =
        (false, some ("File not found: " ++ file_path))) := by
  cases probe with
  | missing => simp [validate_image_file]
  | openError m => simp [validate_image_file]
  | image fmt =>
    by_cases hf : fmt ∈ supported_formats
    · simp [validate_image_file, hf]
    · simp [validate_image_file, hf]

/-- C10 witness: the concrete verdicts on a missing file, a corrupt file, a
GIF and a PNG. -/
theorem validate_image_file_total_witness :
    validate_image_file "/tmp/x.png" FileProbe.missing =
      (false, some "File not found: /tmp/x.png") ∧
    (validate_image_file "/tmp/x.png" (FileProbe.image "GIF")).1 = false ∧
    validate_image_file "/tmp/x.png" (FileProbe.image "PNG") = (true, none) := by
  refine ⟨(validate_image_file_total "/tmp/x.png" FileProbe.missing).2.2 rfl, ?_, ?_⟩
  · decide
  · exact (validate_image_file_total "/tmp/x.png" (FileProbe.image "PNG")).2.1.mpr
      ⟨"PNG", rfl, by decide⟩
